import Mathlib

/-!
Verification of the ChibiOS debug module (`os/rt/include/chdebug.h`):
the system-state-checker macros, the trace-mask configuration, the
check/assert gate and the bit-packed trace event record.
-/

/-- Trace record type constant `CH_TRACE_TYPE_UNUSED` (chdebug.h line 39). -/
def CH_TRACE_TYPE_UNUSED : Nat := 0

/-- Trace record type constant `CH_TRACE_TYPE_SWITCH` (chdebug.h line 40). -/
def CH_TRACE_TYPE_SWITCH : Nat := 1

/-- Trace record type constant `CH_TRACE_TYPE_ISR_ENTER` (chdebug.h line 41). -/
def CH_TRACE_TYPE_ISR_ENTER : Nat := 2

/-- Trace record type constant `CH_TRACE_TYPE_ISR_LEAVE` (chdebug.h line 42). -/
def CH_TRACE_TYPE_ISR_LEAVE : Nat := 3

/-- Trace mask constant `CH_DBG_TRACE_MASK_NONE` (chdebug.h line 49). -/
def CH_DBG_TRACE_MASK_NONE : Nat := 0

/-- Trace mask constant `CH_DBG_TRACE_MASK_SWITCH` (chdebug.h line 50). -/
def CH_DBG_TRACE_MASK_SWITCH : Nat := 1

/-- Trace mask constant `CH_DBG_TRACE_MASK_ISR` (chdebug.h line 51). -/
def CH_DBG_TRACE_MASK_ISR : Nat := 2

/-- Trace mask constant `CH_DBG_TRACE_MASK_ALL`, the bitwise or of the
switch and ISR masks (chdebug.h lines 52-53). -/
def CH_DBG_TRACE_MASK_ALL : Nat :=
  CH_DBG_TRACE_MASK_SWITCH ||| CH_DBG_TRACE_MASK_ISR

/-- Resolution of the `CH_DBG_TRACE_MASK` configuration option: when the
integrator defines it, that value is used, otherwise it defaults to
`CH_DBG_TRACE_MASK_ALL` (chdebug.h lines 67-69). -/
def traceMask (cfg : Option Nat) : Nat :=
  cfg.getD CH_DBG_TRACE_MASK_ALL

/-- Resolution of the `CH_DBG_TRACE_BUFFER_SIZE` configuration option:
when the integrator defines it, that value is used, otherwise it defaults
to 128 (chdebug.h lines 76-78). -/
def traceBufferSize (cfg : Option Nat) : Nat :=
  cfg.getD 128

/-- Whether `_dbg_trace_switch` is compiled in: it is replaced by an empty
macro exactly when `(CH_DBG_TRACE_MASK & CH_DBG_TRACE_MASK_SWITCH) == 0`
(chdebug.h lines 204-206). -/
def traceSwitchCompiled (mask : Nat) : Bool :=
  (mask &&& CH_DBG_TRACE_MASK_SWITCH) != 0

/-- Whether `_dbg_trace_isr_enter` is compiled in: it is replaced by an
empty macro exactly when `(CH_DBG_TRACE_MASK & CH_DBG_TRACE_MASK_ISR) == 0`
(chdebug.h lines 207-208). -/
def traceIsrEnterCompiled (mask : Nat) : Bool :=
  (mask &&& CH_DBG_TRACE_MASK_ISR) != 0

/-- Whether `_dbg_trace_isr_leave` is compiled in: it is guarded by the
same `(CH_DBG_TRACE_MASK & CH_DBG_TRACE_MASK_ISR) == 0` test as
`_dbg_trace_isr_enter` (chdebug.h lines 207-210). -/
def traceIsrLeaveCompiled (mask : Nat) : Bool :=
  (mask &&& CH_DBG_TRACE_MASK_ISR) != 0

/-- The debug part of the kernel singleton `ch.dbg`: ISR nesting counter
and kernel-lock counter (both of C type `cnt_t`, holding small
non-negative values here). -/
structure DbgState where
  isr_cnt : Nat
  lock_cnt : Nat
  deriving DecidableEq, Repr

/-- The result of one state-checker operation: the updated debug state and
whether a fatal halt (`chSysHalt`) was requested. -/
abbrev DbgResult := DbgState × Bool

/-- `_dbg_enter_lock`: when the state checker is enabled it is the macro
`(ch.dbg.lock_cnt = (cnt_t)1)` (chdebug.h line 180), which assigns the
constant 1 to the lock counter and never halts; when disabled it is an
empty macro (chdebug.h line 187). -/
def dbg_enter_lock (stateCheck : Bool) (s : DbgState) : DbgResult :=
  if stateCheck then ({ s with lock_cnt := 1 }, false) else (s, false)

/-- `_dbg_leave_lock`: when the state checker is enabled it is the macro
`(ch.dbg.lock_cnt = (cnt_t)0)` (chdebug.h line 181), which assigns the
constant 0 to the lock counter and never halts; when disabled it is an
empty macro (chdebug.h line 188). -/
def dbg_leave_lock (stateCheck : Bool) (s : DbgState) : DbgResult :=
  if stateCheck then ({ s with lock_cnt := 0 }, false) else (s, false)

/-- `_dbg_check_disable`: an empty macro when the state checker is
disabled (chdebug.h line 189); when enabled it is a function declared at
chdebug.h line 273 whose body lives outside this header, abstracted here
as an arbitrary implementation `impl`. -/
def dbg_check_disable (stateCheck : Bool) (impl : DbgState → DbgResult)
    (s : DbgState) : DbgResult :=
  if stateCheck then impl s else (s, false)

/-- `_dbg_check_suspend`: an empty macro when the state checker is
disabled (chdebug.h line 190); enabled body abstract (declared line 274). -/
def dbg_check_suspend (stateCheck : Bool) (impl : DbgState → DbgResult)
    (s : DbgState) : DbgResult :=
  if stateCheck then impl s else (s, false)

/-- `_dbg_check_enable`: an empty macro when the state checker is
disabled (chdebug.h line 191); enabled body abstract (declared line 275). -/
def dbg_check_enable (stateCheck : Bool) (impl : DbgState → DbgResult)
    (s : DbgState) : DbgResult :=
  if stateCheck then impl s else (s, false)

/-- `_dbg_check_lock`: an empty macro when the state checker is disabled
(chdebug.h line 192); enabled body abstract (declared line 276). -/
def dbg_check_lock (stateCheck : Bool) (impl : DbgState → DbgResult)
    (s : DbgState) : DbgResult :=
  if stateCheck then impl s else (s, false)

/-- `_dbg_check_unlock`: an empty macro when the state checker is
disabled (chdebug.h line 193); enabled body abstract (declared line 277). -/
def dbg_check_unlock (stateCheck : Bool) (impl : DbgState → DbgResult)
    (s : DbgState) : DbgResult :=
  if stateCheck then impl s else (s, false)

/-- `_dbg_check_enter_isr`: an empty macro when the state checker is
disabled (chdebug.h line 196); enabled body abstract (declared line 280). -/
def dbg_check_enter_isr (stateCheck : Bool) (impl : DbgState → DbgResult)
    (s : DbgState) : DbgResult :=
  if stateCheck then impl s else (s, false)

/-- `_dbg_check_leave_isr`: an empty macro when the state checker is
disabled (chdebug.h line 197); enabled body abstract (declared line 281). -/
def dbg_check_leave_isr (stateCheck : Bool) (impl : DbgState → DbgResult)
    (s : DbgState) : DbgResult :=
  if stateCheck then impl s else (s, false)

/-- `chDbgCheckClassI`: an empty macro when the state checker is disabled
(chdebug.h line 198); enabled body abstract (declared line 282). -/
def chDbgCheckClassI (stateCheck : Bool) (impl : DbgState → DbgResult)
    (s : DbgState) : DbgResult :=
  if stateCheck then impl s else (s, false)

/-- `chDbgCheckClassS`: an empty macro when the state checker is disabled
(chdebug.h line 199); enabled body abstract (declared line 283). -/
def chDbgCheckClassS (stateCheck : Bool) (impl : DbgState → DbgResult)
    (s : DbgState) : DbgResult :=
  if stateCheck then impl s else (s, false)

/-- `chDbgCheck(c)` (chdebug.h lines 227-235): when `CH_DBG_ENABLE_CHECKS`
is not FALSE and the condition `c` is false, it calls
`chSysHalt(__func__)`; the result records the halt request as the enclosing
function identity it carries, `none` meaning no halt. -/
def chDbgCheck (checks : Bool) (c : Bool) (func : String) : Option String :=
  if checks then (if !c then some func else none) else none

/-- `chDbgAssert(c, r)` (chdebug.h lines 253-261): when
`CH_DBG_ENABLE_ASSERTS` is not FALSE and the condition `c` is false, it
calls `chSysHalt(__func__)`; the remark parameter `r` does not occur in
the macro body. -/
def chDbgAssert (asserts : Bool) (c : Bool) (func : String) (r : String) :
    Option String :=
  if asserts then (if !c then some func else none) else none

/-- Width of the `type` bit field of `ch_trace_event_t` (chdebug.h
line 115: `uint32_t type:3`). -/
def typeBits : Nat := 3

/-- Width of the `state` bit field of `ch_trace_event_t` (chdebug.h
line 119: `uint32_t state:5`). -/
def stateBits : Nat := 5

/-- Width of the `rtstamp` bit field of `ch_trace_event_t` (chdebug.h
line 125: `uint32_t rtstamp:24`). -/
def rtstampBits : Nat := 24

/-- Value stored by the unsigned 3-bit `type` field: the assigned value
reduced modulo 2^3. -/
def storeType (v : Nat) : Nat := v % 2 ^ typeBits

/-- Value stored by the unsigned 5-bit `state` field: the assigned value
reduced modulo 2^5. -/
def storeState (v : Nat) : Nat := v % 2 ^ stateBits

/-- Value stored by the unsigned 24-bit `rtstamp` field: the assigned
value reduced modulo 2^24. -/
def storeRtstamp (v : Nat) : Nat := v % 2 ^ rtstampBits

/-- The single 32-bit word holding the three bit fields of
`ch_trace_event_t` (chdebug.h lines 111-125), `type` in the low bits,
then `state`, then `rtstamp`. -/
def packWord (t st rt : Nat) : Nat :=
  storeType t + storeState st * 2 ^ typeBits +
    storeRtstamp rt * 2 ^ (typeBits + stateBits)

/-- Reading the `type` bit field back from the packed word. -/
def wordType (w : Nat) : Nat := w % 2 ^ typeBits

/-- Reading the `state` bit field back from the packed word. -/
def wordState (w : Nat) : Nat := w / 2 ^ typeBits % 2 ^ stateBits

/-- Reading the `rtstamp` bit field back from the packed word. -/
def wordRtstamp (w : Nat) : Nat :=
  w / 2 ^ (typeBits + stateBits) % 2 ^ rtstampBits

/-- Modelled from the spec: the trace recorder's sampling of the fine
timestamp, implemented in `chdebug.c`, which is not part of this tree;
the header's own note (chdebug.h lines 122-124) and the spec state that
the field is "only available if the port supports PORT_SUPPORTS_RT else
it is set to zero", a "hardware cycle counter sample, 24-bit range". -/
def sampleRtstamp (portSupportsRT : Bool) (cycleCounter : Nat) : Nat :=
  if portSupportsRT then storeRtstamp cycleCounter else 0

/-- Reading the packed `type` field back yields the stored value: the
other two fields occupy disjoint higher bits. -/
theorem wordType_packWord (t st rt : Nat) :
    wordType (packWord t st rt) = storeType t := by
  have ht : t % 2 ^ 3 < 2 ^ 3 := Nat.mod_lt _ (by norm_num)
  simp only [wordType, packWord, storeType, storeState, storeRtstamp,
    typeBits, stateBits]
  omega

/- ===================== Claims ===================== -/

/-- C1 (counterexample): starting from the reachable state with
lock counter 1, `_dbg_enter_lock` with the state checker enabled leaves
the counter at 1, not 2 — it does not increase the counter by one. -/
theorem enter_lock_not_increment :
    ¬ ((dbg_enter_lock true { isr_cnt := 0, lock_cnt := 1 }).1.lock_cnt
        = 1 + 1) := by
  decide

/-- C1 (amended): `_dbg_enter_lock` sets the kernel-lock counter to the
constant 1 and `_dbg_leave_lock` sets it to the constant 0, neither ever
requesting a halt: the counter behaves as a boolean flag, so the
claimed increase by one holds exactly when the counter was 0 and the
claimed decrease by one exactly when it was 1. -/
theorem enter_lock_sets_one_leave_lock_sets_zero :
    (∀ s : DbgState,
      dbg_enter_lock true s = ({ s with lock_cnt := 1 }, false) ∧
      dbg_leave_lock true s = ({ s with lock_cnt := 0 }, false)) ∧
    (∀ i : Nat,
      (dbg_enter_lock true { isr_cnt := i, lock_cnt := 0 }).1.lock_cnt
        = 0 + 1 ∧
      (dbg_leave_lock true { isr_cnt := i, lock_cnt := 1 }).1.lock_cnt
        = 1 - 1) := by
  constructor
  · intro s
    exact ⟨rfl, rfl⟩
  · intro i
    exact ⟨rfl, rfl⟩

/-- C2 (counterexample): starting from the reachable state with lock
counter 1, `_dbg_enter_lock` immediately followed by `_dbg_leave_lock`
leaves the counter at 0, not at its initial value 1. -/
theorem enter_then_leave_not_identity :
    ¬ ((dbg_leave_lock true
        (dbg_enter_lock true { isr_cnt := 0, lock_cnt := 1 }).1).1.lock_cnt
        = 1) := by
  decide

/-- C2 (amended): `_dbg_enter_lock` immediately followed by
`_dbg_leave_lock` always leaves the lock counter at 0, which equals the
initial value exactly in the unlocked case, initial counter 0. -/
theorem enter_then_leave_resets_to_zero :
    (∀ s : DbgState,
      (dbg_leave_lock true (dbg_enter_lock true s).1).1.lock_cnt = 0) ∧
    (∀ i : Nat,
      (dbg_leave_lock true
        (dbg_enter_lock true { isr_cnt := i, lock_cnt := 0 }).1).1.lock_cnt
        = ({ isr_cnt := i, lock_cnt := 0 } : DbgState).lock_cnt) := by
  exact ⟨fun s => rfl, fun i => rfl⟩

/-- C3 (counterexample): no trace mask disables the ISR-enter recorder
while keeping the context-switch and ISR-leave recorders enabled: the two
ISR entry points are guarded by the same mask bit, so the three entry
points are not independently disableable. -/
theorem no_mask_disables_isr_enter_alone :
    ¬ ∃ m : Nat, traceIsrEnterCompiled m = false ∧
      traceSwitchCompiled m = true ∧ traceIsrLeaveCompiled m = true := by
  rintro ⟨m, h1, _, h3⟩
  have : traceIsrEnterCompiled m = traceIsrLeaveCompiled m := rfl
  rw [h1, h3] at this
  exact Bool.false_ne_true this

/-- C3 (amended): the context-switch recorder and the pair of ISR
recorders are controlled by two separate mask bits: the mask
`CH_DBG_TRACE_MASK_ISR` compiles out the context-switch recorder while
both ISR recorders stay enabled, and the mask `CH_DBG_TRACE_MASK_SWITCH`
compiles out both ISR recorders while the context-switch recorder stays
enabled; ISR-enter and ISR-leave are always enabled or disabled
together. -/
theorem trace_mask_two_independent_groups :
    (traceSwitchCompiled CH_DBG_TRACE_MASK_ISR = false ∧
      traceIsrEnterCompiled CH_DBG_TRACE_MASK_ISR = true ∧
      traceIsrLeaveCompiled CH_DBG_TRACE_MASK_ISR = true) ∧
    (traceIsrEnterCompiled CH_DBG_TRACE_MASK_SWITCH = false ∧
      traceIsrLeaveCompiled CH_DBG_TRACE_MASK_SWITCH = false ∧
      traceSwitchCompiled CH_DBG_TRACE_MASK_SWITCH = true) ∧
    (∀ m : Nat, traceIsrEnterCompiled m = traceIsrLeaveCompiled m) := by
  refine ⟨by decide, by decide, fun m => rfl⟩

/-- C4: with `CH_DBG_ENABLE_CHECKS` enabled, `chDbgCheck(c)` requests a
halt carrying the enclosing function's identity exactly when `c` is
false; with the flag disabled it never requests a halt, for any `c`. -/
theorem chDbgCheck_halts_iff_condition_false :
    ∀ (c : Bool) (func : String),
      (chDbgCheck true c func = some func ↔ c = false) ∧
      chDbgCheck false c func = none := by
  intro c func
  cases c <;> simp [chDbgCheck]

/-- C5: the outcome of `chDbgAssert(c, r)` does not depend on the remark
argument: for any feature-flag value, condition and function identity,
any two remarks produce the same result. -/
theorem chDbgAssert_ignores_remark :
    ∀ (asserts c : Bool) (func r1 r2 : String),
      chDbgAssert asserts c func r1 = chDbgAssert asserts c func r2 := by
  intro asserts c func r1 r2
  rfl

/-- C6: with `CH_DBG_SYSTEM_STATE_CHECK` disabled every state-checker
operation is an empty macro: whatever the enabled-mode implementations
are, each operation returns the state unchanged and requests no halt. -/
theorem disabled_state_checker_ops_are_noops :
    ∀ (impl : DbgState → DbgResult) (s : DbgState),
      dbg_enter_lock false s = (s, false) ∧
      dbg_leave_lock false s = (s, false) ∧
      dbg_check_disable false impl s = (s, false) ∧
      dbg_check_suspend false impl s = (s, false) ∧
      dbg_check_enable false impl s = (s, false) ∧
      dbg_check_lock false impl s = (s, false) ∧
      dbg_check_unlock false impl s = (s, false) ∧
      dbg_check_enter_isr false impl s = (s, false) ∧
      dbg_check_leave_isr false impl s = (s, false) ∧
      chDbgCheckClassI false impl s = (s, false) ∧
      chDbgCheckClassS false impl s = (s, false) := by
  intro impl s
  exact ⟨rfl, rfl, rfl, rfl, rfl, rfl, rfl, rfl, rfl, rfl, rfl⟩

/-- C7: when the integrator does not define `CH_DBG_TRACE_BUFFER_SIZE`
the trace buffer capacity defaults to exactly 128 entries; an explicit
configuration is taken as given. -/
theorem trace_buffer_size_defaults_to_128 :
    traceBufferSize none = 128 ∧
    ∀ n : Nat, traceBufferSize (some n) = n := by
  exact ⟨rfl, fun n => rfl⟩

/-- C8: every value stored in the `rtstamp` field lies in [0, 2^24),
every `type` value in [0, 2^3), every `state` value in [0, 2^5); the
three fields pack into one 32-bit word (3 + 5 + 24 = 32 bits and the
packed word is below 2^32); and the fine timestamp samples to zero when
the port has no cycle counter. -/
theorem event_record_field_ranges :
    (∀ t st rt : Nat,
      storeType t < 2 ^ 3 ∧ storeState st < 2 ^ 5 ∧
      storeRtstamp rt < 2 ^ 24 ∧ packWord t st rt < 2 ^ 32) ∧
    typeBits + stateBits + rtstampBits = 32 ∧
    (∀ c : Nat, sampleRtstamp false c = 0) := by
  refine ⟨fun t st rt => ?_, rfl, fun c => rfl⟩
  simp only [storeType, storeState, storeRtstamp, packWord,
    typeBits, stateBits, rtstampBits]
  omega

/-- C9: the default trace mask is `CH_DBG_TRACE_MASK_ALL`, the union of
the switch and ISR mask bits, so by default the context-switch recorder
and both ISR recorders are all compiled in. -/
theorem default_trace_mask_enables_all :
    traceMask none = CH_DBG_TRACE_MASK_SWITCH ||| CH_DBG_TRACE_MASK_ISR ∧
    traceSwitchCompiled (traceMask none) = true ∧
    traceIsrEnterCompiled (traceMask none) = true ∧
    traceIsrLeaveCompiled (traceMask none) = true := by
  refine ⟨rfl, by decide, by decide, by decide⟩

/-- C10: the four trace record type constants are pairwise distinct,
each fits the 3-bit `type` field, and packing any of them into an event
word and reading the field back returns the original constant, whatever
the other two fields hold. -/
theorem trace_type_constants_distinct_and_roundtrip :
    (CH_TRACE_TYPE_UNUSED ≠ CH_TRACE_TYPE_SWITCH ∧
      CH_TRACE_TYPE_UNUSED ≠ CH_TRACE_TYPE_ISR_ENTER ∧
      CH_TRACE_TYPE_UNUSED ≠ CH_TRACE_TYPE_ISR_LEAVE ∧
      CH_TRACE_TYPE_SWITCH ≠ CH_TRACE_TYPE_ISR_ENTER ∧
      CH_TRACE_TYPE_SWITCH ≠ CH_TRACE_TYPE_ISR_LEAVE ∧
      CH_TRACE_TYPE_ISR_ENTER ≠ CH_TRACE_TYPE_ISR_LEAVE) ∧
    (CH_TRACE_TYPE_UNUSED < 2 ^ typeBits ∧
      CH_TRACE_TYPE_SWITCH < 2 ^ typeBits ∧
      CH_TRACE_TYPE_ISR_ENTER < 2 ^ typeBits ∧
      CH_TRACE_TYPE_ISR_LEAVE < 2 ^ typeBits) ∧
    (∀ st rt : Nat,
      wordType (packWord CH_TRACE_TYPE_UNUSED st rt)
        = CH_TRACE_TYPE_UNUSED ∧
      wordType (packWord CH_TRACE_TYPE_SWITCH st rt)
        = CH_TRACE_TYPE_SWITCH ∧
      wordType (packWord CH_TRACE_TYPE_ISR_ENTER st rt)
        = CH_TRACE_TYPE_ISR_ENTER ∧
      wordType (packWord CH_TRACE_TYPE_ISR_LEAVE st rt)
        = CH_TRACE_TYPE_ISR_LEAVE) := by
  refine ⟨by decide, by decide, fun st rt => ?_⟩
  refine ⟨?_, ?_, ?_, ?_⟩ <;>
    rw [wordType_packWord] <;> decide
